import Mathlib

/-!
Verification of the prompt-editor core: the segment store, the derived
output, the TTL result cache, the AI gateway paths and session
persistence, shallowly embedded from the TypeScript source
(`src/services/openai.ts` and the `usePromptEditor` hook).
-/

namespace PromptEditor

/-- A segment of the prompt, as in the `PromptSegment` interface:
`id`, `content`, `title`, `isIncluded`, `order`, `isEditing`,
`isExpanded`. -/
structure PromptSegment where
  id : String
  content : String
  title : String
  isIncluded : Bool
  order : Nat
  isEditing : Bool
  isExpanded : Bool
deriving DecidableEq, Repr

/-- The comparator `(a, b) => a.order - b.order` passed to the stable
`Array.prototype.sort`: `a` sorts no later than `b` iff
`a.order ≤ b.order`. -/
def segLE (a b : PromptSegment) : Bool :=
  a.order ≤ b.order

/-- `updateFinalOutput` from the hook: filter the included segments, sort
them by `order` (JavaScript sort is stable), map to `content` and join
with a blank line. -/
def computeFinalOutput (segs : List PromptSegment) : String :=
  String.intercalate "\n\n"
    (((segs.filter (fun s => s.isIncluded)).mergeSort segLE).map (fun s => s.content))

/-- The `AppState` record of the hook: `originalPrompt`, `segments`,
`finalOutput`, `isLoading`, `error`. -/
structure AppState where
  originalPrompt : String
  segments : List PromptSegment
  finalOutput : String
  isLoading : Bool
  error : Option String
deriving DecidableEq, Repr

/-- A `Partial<PromptSegment>` argument to `updateSegment`: each field is
optionally present. -/
structure SegmentUpdate where
  id : Option String := none
  content : Option String := none
  title : Option String := none
  isIncluded : Option Bool := none
  order : Option Nat := none
  isEditing : Option Bool := none
  isExpanded : Option Bool := none
deriving DecidableEq, Repr

/-- The object spread `\x7b ...segment, ...updates \x7d`: present fields of
the update replace the corresponding fields of the segment. -/
def applyUpdate (u : SegmentUpdate) (s : PromptSegment) : PromptSegment :=
  { id := u.id.getD s.id
    content := u.content.getD s.content
    title := u.title.getD s.title
    isIncluded := u.isIncluded.getD s.isIncluded
    order := u.order.getD s.order
    isEditing := u.isEditing.getD s.isEditing
    isExpanded := u.isExpanded.getD s.isExpanded }

/-- `setOriginalPrompt(prompt)`: replaces the prompt, clears segments,
final output and error; `isLoading` is untouched. -/
def setOriginalPrompt (s : AppState) (prompt : String) : AppState :=
  { s with
    originalPrompt := prompt
    segments := []
    finalOutput := ""
    error := none }

/-- `updateSegment(id, updates)`: merges the update into the segment with
the matching id; the effect on `state.segments` then recomputes the final
output synchronously. -/
def updateSegment (s : AppState) (segId : String) (u : SegmentUpdate) : AppState :=
  let segs := s.segments.map (fun seg => if seg.id = segId then applyUpdate u seg else seg)
  { s with segments := segs, finalOutput := computeFinalOutput segs }

/-- `reorderSegments(newSegments)`: every segment receives `order` equal
to its position index in the new list; the effect then recomputes the
final output. -/
def reorderSegments (s : AppState) (newSegments : List PromptSegment) : AppState :=
  let reordered := newSegments.mapIdx (fun i seg => { seg with order := i })
  { s with segments := reordered, finalOutput := computeFinalOutput reordered }

/-- `clearError()`: sets `error` to null. -/
def clearError (s : AppState) : AppState :=
  { s with error := none }

/-- The session record written by `saveSession`: `originalPrompt`,
`segments`, `timestamp`. -/
structure SessionData where
  originalPrompt : String
  segments : List PromptSegment
  timestamp : Int
deriving DecidableEq, Repr

/-- `saveSession()`: serializes the durable fields with the current
instant under the fixed session key (the stored value). -/
def saveSession (s : AppState) (now : Int) : SessionData :=
  { originalPrompt := s.originalPrompt, segments := s.segments, timestamp := now }

/-- `loadSession()`: if a session record is stored, restore
`originalPrompt` and `segments` (empty-string and empty-list defaults
coincide with the stored values), set `error` to null, and return true;
the effect on `state.segments` recomputes the final output. Otherwise
return false and leave the state unchanged. -/
def loadSession (s : AppState) (stored : Option SessionData) : AppState × Bool :=
  match stored with
  | some d =>
    ({ s with
        originalPrompt := d.originalPrompt
        segments := d.segments
        finalOutput := computeFinalOutput d.segments
        error := none }, true)
  | none => (s, false)

/-! The result cache of `OpenAIService`, backed by `localStorage`. -/

/-- ToInt32 as performed by the `& ` operator in `hash = hash & hash`:
reduce modulo 2^32 into the signed range. -/
def toInt32 (x : Int) : Int :=
  (x + 2 ^ 31) % 2 ^ 32 - 2 ^ 31

/-- The rolling hash of `generateCacheKey`:
`hash = ((hash << 5) - hash) + char; hash = hash & hash`. Characters are
taken as code points, which coincides with `charCodeAt` on the basic
multilingual plane. -/
def jsHash (s : String) : Int :=
  s.data.foldl (fun h c => toInt32 (toInt32 (h * 32) - h + c.toNat)) 0

/-- `generateCacheKey(operation, input)`: the cache prefix, the operation
name and the absolute value of the rolling hash. -/
def generateCacheKey (operation input : String) : String :=
  "prompt-editor-cache-" ++ operation ++ "-" ++ toString (jsHash input).natAbs

/-- A cached payload: an array of segments (for `break-segments`) or a
string (for `make-concise`). -/
inductive CacheData where
  | segs (l : List PromptSegment)
  | str (s : String)
deriving DecidableEq, Repr

/-- The key-value store holding cache entries: each key maps to a payload
and the timestamp recorded at write time. -/
def CacheStore : Type :=
  String → Option (CacheData × Int)

/-- The cache TTL: 24 hours in milliseconds. -/
def cacheTTL : Int :=
  24 * 60 * 60 * 1000

/-- `getCachedResult(key)`: return the stored data while
`now - timestamp < TTL`; an expired entry is removed and the read is a
miss. The possibly updated store is returned alongside. -/
def getCachedResult (store : CacheStore) (key : String) (now : Int) :
    Option CacheData × CacheStore :=
  match store key with
  | none => (none, store)
  | some (d, t) =>
    if now - t < cacheTTL then
      (some d, store)
    else
      (none, fun k => if k = key then none else store k)

/-- `setCachedResult(key, data)`: store the payload with the current
instant as its timestamp, overwriting any prior entry. -/
def setCachedResult (store : CacheStore) (key : String) (d : CacheData) (now : Int) :
    CacheStore :=
  fun k => if k = key then some (d, now) else store k

/-! The AI gateway: `breakPromptIntoSegments` and `makeConcise` of
`OpenAIService`. -/

/-- The configured model, from `OpenAIConfig`. -/
inductive Model where
  | gpt5mini
  | gpt4omini
  | gpt35turbo
deriving DecidableEq, Repr

/-- `OpenAIConfig`: an API key and a model choice. -/
structure OpenAIConfig where
  apiKey : String
  model : Model
deriving DecidableEq, Repr

/-- The service state: `initialize` sets the config (and the client with
it), and the cache entries live in the backing store. `isInitialized`
holds iff the config is present. -/
structure ServiceState where
  config : Option OpenAIConfig
  store : CacheStore

/-- `choice.message.content` of a chat completion choice; absent or null
content is `none`. -/
structure ChatMessage where
  content : Option String
deriving DecidableEq, Repr

/-- One element of `response.choices`. -/
structure ChatChoice where
  message : Option ChatMessage
  finish_reason : Option String
deriving DecidableEq, Repr

/-- The provider response body. -/
structure ChatResponse where
  choices : List ChatChoice
deriving DecidableEq, Repr

/-- The outcome of the awaited provider call: a rejection carrying an
error message, or a resolved response. -/
inductive ProviderOutcome where
  | failure (msg : String)
  | response (r : ChatResponse)
deriving DecidableEq, Repr

/-- One record of the JSON array returned by the segmentize prompt:
optional `title` and `content` fields. -/
structure RawSegment where
  title : Option String
  content : Option String
deriving DecidableEq, Repr

/-- JavaScript `x || d` for strings: the default replaces both an absent
and an empty string. -/
def jsOrDefault (o : Option String) (d : String) : String :=
  match o with
  | some s => if s = "" then d else s
  | none => d

/-- JavaScript `String.prototype.trim`: strip leading and trailing
whitespace. -/
def jsTrim (s : String) : String :=
  ⟨((s.data.dropWhile Char.isWhitespace).reverse.dropWhile Char.isWhitespace).reverse⟩

/-- The wrapper applied by the catch block of `breakPromptIntoSegments`. -/
def breakFail (msg : String) : String :=
  "Failed to break prompt into segments: " ++ msg

/-- The wrapper applied by the catch block of `makeConcise`. -/
def conciseFail (msg : String) : String :=
  "Failed to make content concise: " ++ msg

/-- The dedicated message thrown when the response is empty with
`finish_reason === length`. -/
def truncatedMsg : String :=
  "Response was truncated due to token limit. The prompt may be too large to process in one request."

/-- Conversion of a parsed record to a `PromptSegment` in
`breakPromptIntoSegments`: fresh id from the instant and the index,
title defaulted to an ordinal title, content defaulted to empty,
included, `order` equal to the index. -/
def rawToSegment (now : Int) (i : Nat) (raw : RawSegment) : PromptSegment :=
  { id := "segment-" ++ toString now ++ "-" ++ toString i
    title := jsOrDefault raw.title ("Segment " ++ toString (i + 1))
    content := jsOrDefault raw.content ""
    isIncluded := true
    order := i
    isEditing := false
    isExpanded := false }

/-- The outcome of a service operation: the returned or thrown value, the
cache store afterwards, and whether the external provider was invoked. -/
structure SvcResult (α : Type) where
  result : Except String α
  store : CacheStore
  called : Bool

/-- The try block of `breakPromptIntoSegments` after a cache miss: await
the provider, distinguish an empty-content response (truncation versus
the generic message), parse the JSON array, build the segments and cache
them under `key`. `parse` stands for `JSON.parse` on the message content
and `provider` for the awaited completion call. -/
def svcBreakProvider (store₁ : CacheStore) (key : String) (now : Int)
    (parse : String → Except String (List RawSegment)) (provider : ProviderOutcome) :
    SvcResult (List PromptSegment) :=
  match provider with
  | ProviderOutcome.failure msg => ⟨.error (breakFail msg), store₁, true⟩
  | ProviderOutcome.response r =>
    let choice := r.choices.head?
    let content := (choice.bind ChatChoice.message).bind ChatMessage.content
    if content = none ∨ content = some "" then
      if choice.bind ChatChoice.finish_reason = some "length" then
        ⟨.error (breakFail truncatedMsg), store₁, true⟩
      else
        ⟨.error (breakFail "No response from OpenAI"), store₁, true⟩
    else
      match parse (content.getD "") with
      | .error e => ⟨.error (breakFail e), store₁, true⟩
      | .ok raws =>
        let result := raws.mapIdx (fun i raw => rawToSegment now i raw)
        ⟨.ok result, setCachedResult store₁ key (CacheData.segs result) now, true⟩

/-- `OpenAIService.breakPromptIntoSegments(prompt)`: throw if not
initialized; serve a cached array if the cache read hits; otherwise run
the provider path. -/
def svcBreakPromptIntoSegments (svc : ServiceState) (prompt : String) (now : Int)
    (parse : String → Except String (List RawSegment)) (provider : ProviderOutcome) :
    SvcResult (List PromptSegment) :=
  if svc.config = none then
    ⟨.error "OpenAI service not initialized", svc.store, false⟩
  else
    let key := generateCacheKey "break-segments" prompt
    let res := getCachedResult svc.store key now
    match res.1 with
    | some (CacheData.segs l) => ⟨.ok l, res.2, false⟩
    | _ => svcBreakProvider res.2 key now parse provider

/-- The try block of `makeConcise` after a cache miss: await the
provider, throw the generic message on empty content (there is no
truncation branch on this path), trim the text, cache and return it. -/
def svcConciseProvider (store₁ : CacheStore) (key : String) (now : Int)
    (provider : ProviderOutcome) : SvcResult String :=
  match provider with
  | ProviderOutcome.failure msg => ⟨.error (conciseFail msg), store₁, true⟩
  | ProviderOutcome.response r =>
    let result := (r.choices.head?.bind ChatChoice.message).bind ChatMessage.content
    if result = none ∨ result = some "" then
      ⟨.error (conciseFail "No response from OpenAI"), store₁, true⟩
    else
      let trimmed := jsTrim (result.getD "")
      ⟨.ok trimmed, setCachedResult store₁ key (CacheData.str trimmed) now, true⟩

/-- `OpenAIService.makeConcise(content)`: throw if not initialized; serve
a cached non-empty string if the cache read hits; otherwise call the
provider, throw the generic message on empty content (no truncation
branch exists on this path), trim, cache and return the result. -/
def svcMakeConcise (svc : ServiceState) (content : String) (now : Int)
    (provider : ProviderOutcome) : SvcResult String :=
  if svc.config = none then
    ⟨.error "OpenAI service not initialized", svc.store, false⟩
  else
    let key := generateCacheKey "make-concise" content
    let res := getCachedResult svc.store key now
    let hit : Option String :=
      match res.1 with
      | some (CacheData.str s) => if s = "" then none else some s
      | _ => none
    match hit with
    | some s => ⟨.ok s, res.2, false⟩
    | none => svcConciseProvider res.2 key now provider

/-- The outcome of a hook-level operation: the app state, the service
state and whether the provider was invoked. -/
structure HookResult where
  state : AppState
  svc : ServiceState
  called : Bool

/-- The hook `breakPromptIntoSegments`: return unchanged when the prompt
trims to empty or the service is uninitialized; otherwise dispatch with
`isLoading = true, error = null`, and on resolution either install the
segments (the effect recomputes the final output) or record the failure
message, resetting `isLoading`. -/
def hookBreakPromptIntoSegments (s : AppState) (svc : ServiceState) (now : Int)
    (parse : String → Except String (List RawSegment)) (provider : ProviderOutcome) :
    HookResult :=
  if jsTrim s.originalPrompt = "" ∨ svc.config = none then
    ⟨s, svc, false⟩
  else
    let r := svcBreakPromptIntoSegments svc s.originalPrompt now parse provider
    match r.result with
    | .ok segs =>
      ⟨{ s with
          segments := segs
          finalOutput := computeFinalOutput segs
          isLoading := false
          error := none }, { svc with store := r.store }, r.called⟩
    | .error e =>
      ⟨{ s with isLoading := false, error := some e }, { svc with store := r.store }, r.called⟩

/-- The hook `makeConcise(segmentId)`: return unchanged when no segment
matches the id or the service is uninitialized; otherwise dispatch with
`isLoading = true, error = null`, and on resolution either merge the
condensed content into the segment via `updateSegment` (recomputing the
final output) or record the failure message, resetting `isLoading`. -/
def hookMakeConcise (s : AppState) (svc : ServiceState) (segmentId : String) (now : Int)
    (provider : ProviderOutcome) : HookResult :=
  match s.segments.find? (fun seg => seg.id = segmentId) with
  | none => ⟨s, svc, false⟩
  | some seg =>
    if svc.config = none then
      ⟨s, svc, false⟩
    else
      let r := svcMakeConcise svc seg.content now provider
      match r.result with
      | .ok concise =>
        let s₂ := updateSegment { s with error := none } segmentId { content := some concise }
        ⟨{ s₂ with isLoading := false }, { svc with store := r.store }, r.called⟩
      | .error e =>
        ⟨{ s with isLoading := false, error := some e }, { svc with store := r.store }, r.called⟩

/-- The invariant relating the stored final output to the segments: it
always equals the value recomputed from the collection. -/
def FinalOutputInv (s : AppState) : Prop :=
  s.finalOutput = computeFinalOutput s.segments

/-- The derived output as the spec words it: the segments taken in
ascending order, restricted to those with `isIncluded = true`, their
contents joined with the blank-line separator. -/
def specDerivedOutput (segs : List PromptSegment) : String :=
  String.intercalate "\n\n"
    (((segs.mergeSort segLE).filter (fun s => s.isIncluded)).map (fun s => s.content))

/-- Position-based reindexing, the map performed by `reorderSegments`. -/
def reindex (L : List PromptSegment) : List PromptSegment :=
  L.mapIdx (fun i seg => { seg with order := i })

theorem segLE_trans (a b c : PromptSegment) (h₁ : segLE a b) (h₂ : segLE b c) : segLE a c := by
  simp only [segLE, decide_eq_true_eq] at *
  omega

theorem segLE_total (a b : PromptSegment) : segLE a b || segLE b a := by
  simp only [segLE, Bool.or_eq_true, decide_eq_true_eq]
  omega

/-- If one list splits in two ways into a prefix on which a predicate is
false and a suffix on which it is true, the two splits coincide. -/
theorem append_eq_of_sep {α : Type} {p : α → Bool} {ys ys' : List α} :
    ∀ {xs xs' : List α}, xs ++ ys = xs' ++ ys' →
      (∀ b ∈ xs, p b = false) → (∀ b ∈ ys, p b = true) →
      (∀ b ∈ xs', p b = false) → (∀ b ∈ ys', p b = true) →
      xs = xs' ∧ ys = ys' := by
  intro xs
  induction xs with
  | nil =>
    intro xs' h h₁ h₂ h₃ h₄
    cases xs' with
    | nil => exact ⟨rfl, by simpa using h⟩
    | cons a' t' =>
      exfalso
      have ha : a' ∈ ys := by
        rw [List.nil_append] at h
        rw [h]
        exact List.mem_append_left _ (List.mem_cons_self _ _)
      have hb := h₂ a' ha
      have hc := h₃ a' (List.mem_cons_self _ _)
      simp [hb] at hc
  | cons a t ih =>
    intro xs' h h₁ h₂ h₃ h₄
    cases xs' with
    | nil =>
      exfalso
      have ha : a ∈ ys' := by
        rw [List.nil_append] at h
        rw [← h]
        exact List.mem_append_left _ (List.mem_cons_self _ _)
      have hb := h₄ a ha
      have hc := h₁ a (List.mem_cons_self _ _)
      simp [hb] at hc
    | cons a' t' =>
      rw [List.cons_append, List.cons_append] at h
      injection h with hae h
      subst hae
      obtain ⟨hx, hy⟩ := ih h (fun b hb => h₁ b (List.mem_cons_of_mem _ hb)) h₂
        (fun b hb => h₃ b (List.mem_cons_of_mem _ hb)) h₄
      exact ⟨by rw [hx], hy⟩

/-- A stable sort commutes with `filter`: filtering the sorted list is
sorting the filtered list. -/
theorem filter_mergeSort_of_stable {α : Type} {le : α → α → Bool}
    (htrans : ∀ a b c, le a b → le b c → le a c)
    (htotal : ∀ a b, le a b || le b a) (p : α → Bool) :
    ∀ l : List α, (l.mergeSort le).filter p = (l.filter p).mergeSort le := by
  intro l
  induction l with
  | nil => simp
  | cons a l ih =>
    obtain ⟨l₁, l₂, h₁, h₂, h₃⟩ := List.mergeSort_cons htrans htotal a l
    by_cases hp : p a = true
    · obtain ⟨m₁, m₂, g₁, g₂, g₃⟩ := List.mergeSort_cons htrans htotal a (l.filter p)
      have hs := List.sorted_mergeSort htrans htotal (a :: l)
      rw [h₁] at hs
      have gs := List.sorted_mergeSort htrans htotal (a :: l.filter p)
      rw [g₁] at gs
      have ha₂ : ∀ b ∈ l₂, le a b = true :=
        fun b hb => List.rel_of_pairwise_cons (List.pairwise_append.mp hs).2.1 hb
      have hm₂ : ∀ b ∈ m₂, le a b = true :=
        fun b hb => List.rel_of_pairwise_cons (List.pairwise_append.mp gs).2.1 hb
      have hl₁ : ∀ b ∈ l₁.filter p, le a b = false := by
        intro b hb
        simpa using h₃ b (List.mem_of_mem_filter hb)
      have hm₁ : ∀ b ∈ m₁, le a b = false := by
        intro b hb
        simpa using g₃ b hb
      have key : l₁.filter p ++ l₂.filter p = m₁ ++ m₂ := by
        rw [← List.filter_append, ← h₂, ih, g₂]
      obtain ⟨e₁, e₂⟩ := append_eq_of_sep key hl₁
        (fun b hb => ha₂ b (List.mem_of_mem_filter hb)) hm₁ hm₂
      rw [h₁, List.filter_append, List.filter_cons_of_pos hp, List.filter_cons_of_pos hp,
        g₁, e₁, e₂]
    · rw [h₁, List.filter_append, List.filter_cons_of_neg hp, ← List.filter_append, ← h₂,
        ih, List.filter_cons_of_neg hp]

theorem filter_mergeSort_segLE (p : PromptSegment → Bool) (l : List PromptSegment) :
    (l.mergeSort segLE).filter p = (l.filter p).mergeSort segLE :=
  filter_mergeSort_of_stable segLE_trans segLE_total p l

/-- The code and spec formulations of the derived output agree: filtering
before a stable sort equals sorting before filtering. -/
theorem computeFinalOutput_eq_spec (segs : List PromptSegment) :
    computeFinalOutput segs = specDerivedOutput segs := by
  unfold computeFinalOutput specDerivedOutput
  rw [filter_mergeSort_segLE]

/-- A map that changes neither `content` nor `isIncluded` does not change
the filtered content sequence. -/
theorem filter_map_content_mapIdx
    (f : Nat → PromptSegment → PromptSegment)
    (hc : ∀ i seg, (f i seg).content = seg.content)
    (hi : ∀ i seg, (f i seg).isIncluded = seg.isIncluded) :
    ∀ L : List PromptSegment,
      ((L.mapIdx f).filter (fun s => s.isIncluded)).map (fun s => s.content)
        = (L.filter (fun s => s.isIncluded)).map (fun s => s.content) := by
  intro L
  induction L generalizing f with
  | nil => simp
  | cons a L ih =>
    rw [List.mapIdx_cons]
    have h0 : (f 0 a).isIncluded = a.isIncluded := hi 0 a
    by_cases ha : a.isIncluded = true
    · rw [List.filter_cons_of_pos (h0.trans ha), List.filter_cons_of_pos ha,
        List.map_cons, List.map_cons, hc 0 a,
        ih (fun i seg => f (i + 1) seg) (fun i seg => hc (i + 1) seg)
          (fun i seg => hi (i + 1) seg)]
    · rw [List.filter_cons_of_neg (fun h => ha (h0.symm.trans h)),
        List.filter_cons_of_neg ha,
        ih (fun i seg => f (i + 1) seg) (fun i seg => hc (i + 1) seg)
          (fun i seg => hi (i + 1) seg)]

/-- The reindexed list carries strictly increasing `order` values, hence
is sorted for `segLE`. -/
theorem pairwise_reindex (L : List PromptSegment) :
    (reindex L).Pairwise (fun a b => segLE a b = true) := by
  rw [reindex, List.pairwise_iff_getElem]
  intro i j hi hj hij
  simp only [List.getElem_mapIdx]
  simp only [segLE, decide_eq_true_eq]
  omega

theorem getCachedResult_of_valid {store : CacheStore} {key : String} {d : CacheData}
    {t now : Int} (hs : store key = some (d, t)) (hlt : now - t < cacheTTL) :
    getCachedResult store key now = (some d, store) := by
  unfold getCachedResult
  rw [hs]
  simp [hlt]

theorem getCachedResult_fst_some {store : CacheStore} {key : String} {now : Int}
    {d : CacheData} (h : (getCachedResult store key now).1 = some d) :
    (getCachedResult store key now).2 = store
      ∧ ∃ t, store key = some (d, t) ∧ now - t < cacheTTL := by
  unfold getCachedResult at *
  cases hs : store key with
  | none =>
    rw [hs] at h
    simp at h
  | some e =>
    obtain ⟨d', t⟩ := e
    rw [hs] at h
    by_cases hlt : now - t < cacheTTL
    · simp only [hlt, if_true] at h ⊢
      simp only [Option.some.injEq] at h
      subst h
      exact ⟨trivial, t, rfl, hlt⟩
    · simp [hlt] at h

/-- Claim C4: after `cache.set(k, v)` at instant `t`, `cache.get(k)` at
instant `now` returns `v` while the age `now - t` is strictly below the
24-hour TTL; once the age reaches the TTL, the read reports a miss,
removes the entry at `k`, and leaves every other key untouched. -/
theorem c4_cache_set_get (store : CacheStore) (key : String) (d : CacheData) (t now : Int) :
    (now - t < cacheTTL →
      getCachedResult (setCachedResult store key d t) key now
        = (some d, setCachedResult store key d t))
    ∧ (cacheTTL ≤ now - t →
      (getCachedResult (setCachedResult store key d t) key now).1 = none
      ∧ (getCachedResult (setCachedResult store key d t) key now).2 key = none
      ∧ ∀ k, k ≠ key →
          (getCachedResult (setCachedResult store key d t) key now).2 k
            = setCachedResult store key d t k) := by
  have hs : setCachedResult store key d t key = some (d, t) := by
    simp [setCachedResult]
  constructor
  · intro hlt
    exact getCachedResult_of_valid hs hlt
  · intro hge
    have hnlt : ¬(now - t < cacheTTL) := by omega
    have hg : getCachedResult (setCachedResult store key d t) key now
        = (none, fun k => if k = key then none else setCachedResult store key d t k) := by
      unfold getCachedResult
      rw [hs]
      simp [hnlt]
    rw [hg]
    refine ⟨rfl, by simp, ?_⟩
    intro k hk
    simp [hk]

/-- Witness for C4 at a concrete store, key, payload and two instants,
one inside and one at the TTL boundary. -/
theorem c4_cache_set_get_witness :
    (getCachedResult (setCachedResult (fun _ => none) "k" (CacheData.str "v") 0) "k" 5).1
      = some (CacheData.str "v")
    ∧ (getCachedResult (setCachedResult (fun _ => none) "k" (CacheData.str "v") 0) "k"
        cacheTTL).1 = none :=
  ⟨congrArg Prod.fst
      ((c4_cache_set_get (fun _ => none) "k" (CacheData.str "v") 0 5).1 (by decide)),
    ((c4_cache_set_get (fun _ => none) "k" (CacheData.str "v") 0 cacheTTL).2
      (by decide)).1⟩

/-- Claim C5: `setOriginalPrompt(text)` replaces the prompt, clears the
segments, the derived output and the error, and leaves `isLoading` (the
only other field) unchanged; the operation involves no provider call. -/
theorem c5_setOriginalPrompt (s : AppState) (text : String) :
    setOriginalPrompt s text
      = { originalPrompt := text, segments := [], finalOutput := "",
          isLoading := s.isLoading, error := none } :=
  rfl

/-- Claim C7: a `saveSession` snapshot fed back through `loadSession`
restores `originalPrompt` and the full segment list exactly (hence every
id, content, order and isIncluded flag), from any intermediate state, and
the load reports success. -/
theorem c7_session_roundtrip (s s₂ : AppState) (now : Int) :
    (loadSession s₂ (some (saveSession s now))).1.originalPrompt = s.originalPrompt
    ∧ (loadSession s₂ (some (saveSession s now))).1.segments = s.segments
    ∧ (loadSession s₂ (some (saveSession s now))).2 = true :=
  ⟨rfl, rfl, rfl⟩

theorem computeFinalOutput_nil : computeFinalOutput [] = "" := by
  unfold computeFinalOutput
  rw [List.filter_nil, List.mergeSort_nil, List.map_nil]
  rfl

/-- Claim C1: the derived output always equals the content of the
included segments in ascending order joined by a blank line (the code
computation agrees with the spec formulation), and it is never mutated
independently: every operation of the core reestablishes the invariant
that `finalOutput` is the recomputation from the segments. -/
theorem c1_derived_output_invariant (s : AppState) (h : FinalOutputInv s) :
    (∀ segs, computeFinalOutput segs = specDerivedOutput segs)
    ∧ (∀ text, FinalOutputInv (setOriginalPrompt s text))
    ∧ (∀ segId u, FinalOutputInv (updateSegment s segId u))
    ∧ (∀ L, FinalOutputInv (reorderSegments s L))
    ∧ FinalOutputInv (clearError s)
    ∧ (∀ stored, FinalOutputInv (loadSession s stored).1)
    ∧ (∀ svc now parse provider,
        FinalOutputInv (hookBreakPromptIntoSegments s svc now parse provider).state)
    ∧ (∀ svc segId now provider,
        FinalOutputInv (hookMakeConcise s svc segId now provider).state) := by
  refine ⟨computeFinalOutput_eq_spec, ?_, ?_, ?_, ?_, ?_, ?_, ?_⟩
  · intro text
    show ("" : String) = computeFinalOutput []
    exact computeFinalOutput_nil.symm
  · intro segId u
    exact rfl
  · intro L
    exact rfl
  · exact h
  · intro stored
    cases stored with
    | some d => exact rfl
    | none => exact h
  · intro svc now parse provider
    unfold hookBreakPromptIntoSegments
    split
    · exact h
    · dsimp only
      split
      · exact rfl
      · exact h
  · intro svc segId now provider
    unfold hookMakeConcise
    split
    · exact h
    · split
      · exact h
      · dsimp only
        split
        · exact rfl
        · exact h

/-- Witness for C1 at a concrete state satisfying the invariant. -/
theorem c1_derived_output_invariant_witness :
    (∀ segs, computeFinalOutput segs = specDerivedOutput segs)
    ∧ (∀ text, FinalOutputInv (setOriginalPrompt
        { originalPrompt := "p", segments := [], finalOutput := "",
          isLoading := false, error := none } text))
    ∧ (∀ segId u, FinalOutputInv (updateSegment
        { originalPrompt := "p", segments := [], finalOutput := "",
          isLoading := false, error := none } segId u))
    ∧ (∀ L, FinalOutputInv (reorderSegments
        { originalPrompt := "p", segments := [], finalOutput := "",
          isLoading := false, error := none } L))
    ∧ FinalOutputInv (clearError
        { originalPrompt := "p", segments := [], finalOutput := "",
          isLoading := false, error := none })
    ∧ (∀ stored, FinalOutputInv (loadSession
        { originalPrompt := "p", segments := [], finalOutput := "",
          isLoading := false, error := none } stored).1)
    ∧ (∀ svc now parse provider,
        FinalOutputInv (hookBreakPromptIntoSegments
          { originalPrompt := "p", segments := [], finalOutput := "",
            isLoading := false, error := none } svc now parse provider).state)
    ∧ (∀ svc segId now provider,
        FinalOutputInv (hookMakeConcise
          { originalPrompt := "p", segments := [], finalOutput := "",
            isLoading := false, error := none } svc segId now provider).state) :=
  c1_derived_output_invariant
    { originalPrompt := "p", segments := [], finalOutput := "",
      isLoading := false, error := none }
    (by simp [FinalOutputInv, computeFinalOutput_nil])

/-- Claim C6: `reorderSegments` assigns each segment the `order` equal to
its position in the new list, and reordering by the current canonical
(ascending-order) sequence leaves the derived output unchanged. -/
theorem c6_reorder_canonical_noop (s : AppState) (h : FinalOutputInv s) :
    (∀ L, (reorderSegments s L).segments = reindex L)
    ∧ (reorderSegments s (s.segments.mergeSort segLE)).finalOutput = s.finalOutput := by
  constructor
  · intro L
    exact rfl
  · have hL : (reorderSegments s (s.segments.mergeSort segLE)).finalOutput
        = computeFinalOutput (reindex (s.segments.mergeSort segLE)) := rfl
    rw [hL]
    unfold computeFinalOutput
    rw [List.mergeSort_of_sorted
      (List.Pairwise.sublist (List.filter_sublist _)
        (pairwise_reindex (s.segments.mergeSort segLE)))]
    rw [show reindex (s.segments.mergeSort segLE)
        = (s.segments.mergeSort segLE).mapIdx (fun i seg => { seg with order := i }) from rfl]
    rw [filter_map_content_mapIdx (fun i seg => { seg with order := i })
      (fun i seg => rfl) (fun i seg => rfl) (s.segments.mergeSort segLE)]
    rw [filter_mergeSort_segLE]
    rw [h]
    rfl

/-- Witness for C6 at a concrete state satisfying the invariant. -/
theorem c6_reorder_canonical_noop_witness :
    (∀ L, (reorderSegments
        { originalPrompt := "p", segments := [], finalOutput := "",
          isLoading := false, error := none } L).segments = reindex L)
    ∧ (reorderSegments
        { originalPrompt := "p", segments := [], finalOutput := "",
          isLoading := false, error := none }
        (List.mergeSort [] segLE)).finalOutput = "" :=
  c6_reorder_canonical_noop
    { originalPrompt := "p", segments := [], finalOutput := "",
      isLoading := false, error := none }
    (by simp [FinalOutputInv, computeFinalOutput_nil])

/-- Claim C9: when a dispatched AI operation fails, the prompt, the
segments and the derived output are exactly as before the dispatch; the
only changes are `isLoading` reset to false and `error` set to the
failure message. Each operation is covered under its own dispatch
conditions alone: the break frame needs only a dispatchable prompt and
an initialized service plus a failing segmentize call (of any kind:
provider rejection, truncation, empty response or parse error); the
condense frame needs only a matching segment and an initialized service
plus a failing condense call. -/
theorem c9_failure_frame (s : AppState) (svc : ServiceState) (now : Int)
    (parse : String → Except String (List RawSegment)) (provider : ProviderOutcome)
    (segId : String) (e₁ e₂ : String) :
    (¬(jsTrim s.originalPrompt = "" ∨ svc.config = none) →
      (svcBreakPromptIntoSegments svc s.originalPrompt now parse provider).result
        = Except.error e₁ →
      (hookBreakPromptIntoSegments s svc now parse provider).state
        = { s with isLoading := false, error := some e₁ })
    ∧ (∀ seg, s.segments.find? (fun sg => sg.id = segId) = some seg →
        ¬svc.config = none →
        (svcMakeConcise svc seg.content now provider).result = Except.error e₂ →
        (hookMakeConcise s svc segId now provider).state
          = { s with isLoading := false, error := some e₂ }) := by
  constructor
  · intro hguard hfail₁
    unfold hookBreakPromptIntoSegments
    rw [if_neg hguard]
    dsimp only
    rw [hfail₁]
  · intro seg hfind hcfg hfail₂
    unfold hookMakeConcise
    split
    · rename_i heq
      rw [hfind] at heq
      cases heq
    · rename_i seg' heq
      rw [hfind] at heq
      injection heq with he
      subst he
      rw [if_neg hcfg]
      dsimp only
      rw [hfail₂]

/-- Witness for C9: a provider rejection leaves the concrete state intact
apart from the error message and the loading flag, for both operations,
each half discharged on its own. -/
theorem c9_failure_frame_witness :
    (hookBreakPromptIntoSegments
        { originalPrompt := "hi", segments := [⟨"a", "c", "t", true, 0, false, false⟩],
          finalOutput := "c", isLoading := false, error := none }
        { config := some { apiKey := "k", model := Model.gpt4omini }, store := fun _ => none }
        0 (fun _ => Except.error "p") (ProviderOutcome.failure "boom")).state
      = { originalPrompt := "hi", segments := [⟨"a", "c", "t", true, 0, false, false⟩],
          finalOutput := "c", isLoading := false, error := some (breakFail "boom") }
    ∧ (hookMakeConcise
        { originalPrompt := "hi", segments := [⟨"a", "c", "t", true, 0, false, false⟩],
          finalOutput := "c", isLoading := false, error := none }
        { config := some { apiKey := "k", model := Model.gpt4omini }, store := fun _ => none }
        "a" 0 (ProviderOutcome.failure "boom")).state
      = { originalPrompt := "hi", segments := [⟨"a", "c", "t", true, 0, false, false⟩],
          finalOutput := "c", isLoading := false, error := some (conciseFail "boom") } :=
  ⟨(c9_failure_frame
      { originalPrompt := "hi", segments := [⟨"a", "c", "t", true, 0, false, false⟩],
        finalOutput := "c", isLoading := false, error := none }
      { config := some { apiKey := "k", model := Model.gpt4omini }, store := fun _ => none }
      0 (fun _ => Except.error "p") (ProviderOutcome.failure "boom") "a"
      (breakFail "boom") (conciseFail "boom")).1 (by decide) rfl,
    (c9_failure_frame
      { originalPrompt := "hi", segments := [⟨"a", "c", "t", true, 0, false, false⟩],
        finalOutput := "c", isLoading := false, error := none }
      { config := some { apiKey := "k", model := Model.gpt4omini }, store := fun _ => none }
      0 (fun _ => Except.error "p") (ProviderOutcome.failure "boom") "a"
      (breakFail "boom") (conciseFail "boom")).2
      ⟨"a", "c", "t", true, 0, false, false⟩ rfl (by decide) rfl⟩

/-- Claim C10: the guarded entry points are complete no-ops, each under
its own guard alone. With an empty or whitespace-only prompt or an
uninitialized service, `breakPromptIntoSegments` changes nothing, sets
no error, keeps `isLoading` false and makes no provider call; likewise
`makeConcise` with a segment id not present in the collection — also on
an initialized service with a nonempty prompt — or with an uninitialized
service. -/
theorem c10_guard_noop (s : AppState) (svc : ServiceState) (now : Int)
    (parse : String → Except String (List RawSegment)) (provider : ProviderOutcome)
    (segId : String) :
    ((jsTrim s.originalPrompt = "" ∨ svc.config = none) →
      hookBreakPromptIntoSegments s svc now parse provider = ⟨s, svc, false⟩)
    ∧ ((s.segments.find? (fun seg => seg.id = segId) = none ∨ svc.config = none) →
      hookMakeConcise s svc segId now provider = ⟨s, svc, false⟩) := by
  constructor
  · intro hg₁
    unfold hookBreakPromptIntoSegments
    rw [if_pos hg₁]
  · intro hg₂
    unfold hookMakeConcise
    rcases hg₂ with hfind | hcfg
    · rw [hfind]
    · cases hfind : s.segments.find? (fun seg => seg.id = segId) with
      | none => rfl
      | some seg =>
        dsimp only
        rw [if_pos hcfg]

/-- Witness for C10: the break half with an uninitialized service, and
the concise half with an unknown segment id on an initialized service
holding a nonempty prompt. -/
theorem c10_guard_noop_witness :
    hookBreakPromptIntoSegments ⟨"", [], "", false, none⟩ ⟨none, fun _ => none⟩ 0
        (fun _ => Except.error "e") (ProviderOutcome.failure "f")
      = ⟨⟨"", [], "", false, none⟩, ⟨none, fun _ => none⟩, false⟩
    ∧ hookMakeConcise
        ⟨"hi", [⟨"a", "c", "t", true, 0, false, false⟩], "c", false, none⟩
        ⟨some ⟨"k", Model.gpt4omini⟩, fun _ => none⟩ "x" 0 (ProviderOutcome.failure "f")
      = ⟨⟨"hi", [⟨"a", "c", "t", true, 0, false, false⟩], "c", false, none⟩,
          ⟨some ⟨"k", Model.gpt4omini⟩, fun _ => none⟩, false⟩ :=
  ⟨(c10_guard_noop ⟨"", [], "", false, none⟩ ⟨none, fun _ => none⟩ 0
      (fun _ => Except.error "e") (ProviderOutcome.failure "f") "x").1 (Or.inr rfl),
    (c10_guard_noop ⟨"hi", [⟨"a", "c", "t", true, 0, false, false⟩], "c", false, none⟩
      ⟨some ⟨"k", Model.gpt4omini⟩, fun _ => none⟩ 0
      (fun _ => Except.error "e") (ProviderOutcome.failure "f") "x").2 (Or.inl rfl)⟩

/-- Counterexample to C8 as stated: `loadSession` is neither the explicit
dismiss nor `setOriginalPrompt`, yet loading a stored session clears a
previously stored error (from `some "earlier failure"` to `none`). -/
theorem c8_counterexample :
    ((loadSession
        { originalPrompt := "p", segments := [], finalOutput := "",
          isLoading := false, error := some "earlier failure" }
        (some { originalPrompt := "q", segments := [], timestamp := 0 })).1).error = none
    ∧ some "earlier failure" ≠ (none : Option String) :=
  ⟨rfl, by decide⟩

/-- Claim C8 (amended): `updateSegment` and `reorderSegments` preserve
the error field, `saveSession` does not touch the state, and an error is
cleared by `clearError` and `setOriginalPrompt` — but also by
`loadSession` of a stored session, and by the dispatch of either AI
operation, whose final error is the failure message on failure and null
on success regardless of the prior error. -/
theorem c8_error_clearing (s : AppState) (svc : ServiceState) (now : Int)
    (parse : String → Except String (List RawSegment)) (provider : ProviderOutcome)
    (hguard : ¬(jsTrim s.originalPrompt = "" ∨ svc.config = none)) :
    (∀ segId u, (updateSegment s segId u).error = s.error)
    ∧ (∀ L, (reorderSegments s L).error = s.error)
    ∧ (clearError s).error = none
    ∧ (∀ text, (setOriginalPrompt s text).error = none)
    ∧ (∀ d, ((loadSession s (some d)).1).error = none)
    ∧ ((loadSession s none).1).error = s.error
    ∧ ((hookBreakPromptIntoSegments s svc now parse provider).state.error
        = match (svcBreakPromptIntoSegments svc s.originalPrompt now parse provider).result with
          | Except.ok _ => none
          | Except.error e => some e)
    ∧ (∀ segId seg, s.segments.find? (fun sg => sg.id = segId) = some seg →
        (hookMakeConcise s svc segId now provider).state.error
          = match (svcMakeConcise svc seg.content now provider).result with
            | Except.ok _ => none
            | Except.error e => some e) := by
  refine ⟨fun _ _ => rfl, fun _ => rfl, rfl, fun _ => rfl, fun _ => rfl, rfl, ?_, ?_⟩
  · unfold hookBreakPromptIntoSegments
    rw [if_neg hguard]
    dsimp only
    cases hr : (svcBreakPromptIntoSegments svc s.originalPrompt now parse provider).result with
    | ok segs => rfl
    | error e => rfl
  · intro segId seg hfind
    unfold hookMakeConcise
    split
    · rename_i heq
      rw [hfind] at heq
      cases heq
    · rename_i seg' heq
      rw [hfind] at heq
      injection heq with he
      subst he
      rw [if_neg (fun hc => hguard (Or.inr hc))]
      dsimp only
      cases hr : (svcMakeConcise svc seg.content now provider).result with
      | ok c => rfl
      | error e => rfl

/-- Witness for the amended C8 at a concrete state carrying an error. -/
theorem c8_error_clearing_witness :
    (∀ segId u, (updateSegment
        { originalPrompt := "hi", segments := [⟨"a", "c", "t", true, 0, false, false⟩],
          finalOutput := "c", isLoading := false, error := some "old" } segId u).error
      = ({ originalPrompt := "hi", segments := [⟨"a", "c", "t", true, 0, false, false⟩],
           finalOutput := "c", isLoading := false, error := some "old" } : AppState).error)
    ∧ (∀ L, (reorderSegments
        { originalPrompt := "hi", segments := [⟨"a", "c", "t", true, 0, false, false⟩],
          finalOutput := "c", isLoading := false, error := some "old" } L).error
      = ({ originalPrompt := "hi", segments := [⟨"a", "c", "t", true, 0, false, false⟩],
           finalOutput := "c", isLoading := false, error := some "old" } : AppState).error)
    ∧ (clearError
        { originalPrompt := "hi", segments := [⟨"a", "c", "t", true, 0, false, false⟩],
          finalOutput := "c", isLoading := false, error := some "old" }).error = none
    ∧ (∀ text, (setOriginalPrompt
        { originalPrompt := "hi", segments := [⟨"a", "c", "t", true, 0, false, false⟩],
          finalOutput := "c", isLoading := false, error := some "old" } text).error = none)
    ∧ (∀ d, ((loadSession
        { originalPrompt := "hi", segments := [⟨"a", "c", "t", true, 0, false, false⟩],
          finalOutput := "c", isLoading := false, error := some "old" } (some d)).1).error
      = none)
    ∧ ((loadSession
        { originalPrompt := "hi", segments := [⟨"a", "c", "t", true, 0, false, false⟩],
          finalOutput := "c", isLoading := false, error := some "old" } none).1).error
      = ({ originalPrompt := "hi", segments := [⟨"a", "c", "t", true, 0, false, false⟩],
           finalOutput := "c", isLoading := false, error := some "old" } : AppState).error
    ∧ ((hookBreakPromptIntoSegments
        { originalPrompt := "hi", segments := [⟨"a", "c", "t", true, 0, false, false⟩],
          finalOutput := "c", isLoading := false, error := some "old" }
        { config := some { apiKey := "k", model := Model.gpt4omini }, store := fun _ => none }
        0 (fun _ => Except.error "p") (ProviderOutcome.failure "boom")).state.error
      = match (svcBreakPromptIntoSegments
          { config := some { apiKey := "k", model := Model.gpt4omini }, store := fun _ => none }
          ({ originalPrompt := "hi", segments := [⟨"a", "c", "t", true, 0, false, false⟩],
               finalOutput := "c", isLoading := false, error := some "old" } : AppState).originalPrompt
          0 (fun _ => Except.error "p") (ProviderOutcome.failure "boom")).result with
        | Except.ok _ => none
        | Except.error e => some e)
    ∧ (∀ segId seg,
        ({ originalPrompt := "hi", segments := [⟨"a", "c", "t", true, 0, false, false⟩],
             finalOutput := "c", isLoading := false, error := some "old" } : AppState).segments.find?
            (fun sg => sg.id = segId) = some seg →
        (hookMakeConcise
          { originalPrompt := "hi", segments := [⟨"a", "c", "t", true, 0, false, false⟩],
            finalOutput := "c", isLoading := false, error := some "old" }
          { config := some { apiKey := "k", model := Model.gpt4omini }, store := fun _ => none }
          segId 0 (ProviderOutcome.failure "boom")).state.error
          = match (svcMakeConcise
              { config := some { apiKey := "k", model := Model.gpt4omini },
                store := fun _ => none }
              seg.content 0 (ProviderOutcome.failure "boom")).result with
            | Except.ok _ => none
            | Except.error e => some e) :=
  c8_error_clearing
    { originalPrompt := "hi", segments := [⟨"a", "c", "t", true, 0, false, false⟩],
      finalOutput := "c", isLoading := false, error := some "old" }
    { config := some { apiKey := "k", model := Model.gpt4omini }, store := fun _ => none }
    0 (fun _ => Except.error "p") (ProviderOutcome.failure "boom") (by decide)

/-- Counterexample to C2 as stated: for the condense operation, a
response with no content that is flagged `finish_reason = length` fails
with the generic empty-response message, exactly as a non-truncated
empty response does — no distinct Truncated failure exists on that
path. -/
theorem c2_counterexample :
    (svcMakeConcise ⟨some ⟨"k", Model.gpt4omini⟩, fun _ => none⟩ "text" 0
        (ProviderOutcome.response ⟨[⟨some ⟨none⟩, some "length"⟩]⟩)).result
      = Except.error (conciseFail "No response from OpenAI")
    ∧ (svcMakeConcise ⟨some ⟨"k", Model.gpt4omini⟩, fun _ => none⟩ "text" 0
        (ProviderOutcome.response ⟨[⟨some ⟨none⟩, some "length"⟩]⟩)).result
      = (svcMakeConcise ⟨some ⟨"k", Model.gpt4omini⟩, fun _ => none⟩ "text" 0
          (ProviderOutcome.response ⟨[⟨some ⟨none⟩, some "stop"⟩]⟩)).result :=
  ⟨rfl, rfl⟩

/-- Claim C2 (amended): for segmentize, a no-content response flagged
`finish_reason = length` yields the distinct truncation failure, never
the generic empty-response failure and never an empty success; for
condense the same situation yields the generic empty-response failure
(the code has no truncation branch on that path), and also never an
empty success. -/
theorem c2_truncated_failure (svc : ServiceState) (p content : String) (now : Int)
    (parse : String → Except String (List RawSegment)) (r : ChatResponse)
    (hcfg : ¬svc.config = none)
    (hb : (getCachedResult svc.store (generateCacheKey "break-segments" p) now).1 = none)
    (hc : (getCachedResult svc.store (generateCacheKey "make-concise" content) now).1 = none)
    (hempty : (r.choices.head?.bind ChatChoice.message).bind ChatMessage.content = none
      ∨ (r.choices.head?.bind ChatChoice.message).bind ChatMessage.content = some "")
    (hlen : r.choices.head?.bind ChatChoice.finish_reason = some "length") :
    (svcBreakPromptIntoSegments svc p now parse (ProviderOutcome.response r)).result
      = Except.error (breakFail truncatedMsg)
    ∧ breakFail truncatedMsg ≠ breakFail "No response from OpenAI"
    ∧ (svcMakeConcise svc content now (ProviderOutcome.response r)).result
      = Except.error (conciseFail "No response from OpenAI") := by
  refine ⟨?_, by decide, ?_⟩
  · unfold svcBreakPromptIntoSegments
    rw [if_neg hcfg]
    dsimp only
    simp only [hb]
    unfold svcBreakProvider
    dsimp only
    rw [if_pos hempty, if_pos hlen]
  · unfold svcMakeConcise
    rw [if_neg hcfg]
    dsimp only
    simp only [hc]
    unfold svcConciseProvider
    dsimp only
    rw [if_pos hempty]

/-- Witness for the amended C2 at a concrete service state and a concrete
length-truncated empty response. -/
theorem c2_truncated_failure_witness :
    (svcBreakPromptIntoSegments ⟨some ⟨"k", Model.gpt4omini⟩, fun _ => none⟩ "text" 0
        (fun _ => Except.error "x")
        (ProviderOutcome.response ⟨[⟨some ⟨none⟩, some "length"⟩]⟩)).result
      = Except.error (breakFail truncatedMsg)
    ∧ breakFail truncatedMsg ≠ breakFail "No response from OpenAI"
    ∧ (svcMakeConcise ⟨some ⟨"k", Model.gpt4omini⟩, fun _ => none⟩ "other" 0
        (ProviderOutcome.response ⟨[⟨some ⟨none⟩, some "length"⟩]⟩)).result
      = Except.error (conciseFail "No response from OpenAI") :=
  c2_truncated_failure ⟨some ⟨"k", Model.gpt4omini⟩, fun _ => none⟩ "text" "other" 0
    (fun _ => Except.error "x") ⟨[⟨some ⟨none⟩, some "length"⟩]⟩
    (by decide) rfl rfl (Or.inl rfl) rfl

/-- A successful run of the provider path stores its result in the cache
under `key`. -/
theorem svcBreakProvider_ok_store (store₁ : CacheStore) (key : String) (now : Int)
    (parse : String → Except String (List RawSegment)) (provider : ProviderOutcome)
    (l : List PromptSegment)
    (h : (svcBreakProvider store₁ key now parse provider).result = Except.ok l) :
    ∃ t, (svcBreakProvider store₁ key now parse provider).store key
      = some (CacheData.segs l, t) := by
  cases provider with
  | failure msg =>
    unfold svcBreakProvider at h
    simp at h
  | response r =>
    unfold svcBreakProvider at h ⊢
    dsimp only at h ⊢
    by_cases hcond : ((r.choices.head?.bind ChatChoice.message).bind ChatMessage.content = none
        ∨ (r.choices.head?.bind ChatChoice.message).bind ChatMessage.content = some "")
    · rw [if_pos hcond] at h
      by_cases hfin : r.choices.head?.bind ChatChoice.finish_reason = some "length"
      · rw [if_pos hfin] at h
        simp at h
      · rw [if_neg hfin] at h
        simp at h
    · rw [if_neg hcond] at h ⊢
      cases hp : parse (((r.choices.head?.bind ChatChoice.message).bind
          ChatMessage.content).getD "") with
      | error e =>
        simp only [hp] at h
        simp at h
      | ok raws =>
        simp only [hp] at h ⊢
        simp only [Except.ok.injEq] at h
        refine ⟨now, ?_⟩
        rw [← h]
        simp [setCachedResult]

/-- A successful segmentize call leaves its result in the cache under
the key of the prompt, and requires an initialized service. -/
theorem svcBreak_ok_store (svc : ServiceState) (p : String) (now : Int)
    (parse : String → Except String (List RawSegment)) (provider : ProviderOutcome)
    (l : List PromptSegment)
    (h : (svcBreakPromptIntoSegments svc p now parse provider).result = Except.ok l) :
    ¬svc.config = none
    ∧ ∃ t, (svcBreakPromptIntoSegments svc p now parse provider).store
        (generateCacheKey "break-segments" p) = some (CacheData.segs l, t) := by
  by_cases hcfg : svc.config = none
  · unfold svcBreakPromptIntoSegments at h
    rw [if_pos hcfg] at h
    simp at h
  · refine ⟨hcfg, ?_⟩
    unfold svcBreakPromptIntoSegments at h ⊢
    rw [if_neg hcfg] at h ⊢
    dsimp only at h ⊢
    cases hX : (getCachedResult svc.store (generateCacheKey "break-segments" p) now).1 with
    | some d =>
      cases d with
      | segs l' =>
        simp only [hX] at h ⊢
        simp only [Except.ok.injEq] at h
        subst h
        obtain ⟨h2, t, hst, hlt⟩ := getCachedResult_fst_some hX
        rw [h2]
        exact ⟨t, hst⟩
      | str s =>
        simp only [hX] at h ⊢
        exact svcBreakProvider_ok_store _ _ _ _ _ _ h
    | none =>
      simp only [hX] at h ⊢
      exact svcBreakProvider_ok_store _ _ _ _ _ _ h

/-- A segmentize call against a valid cached entry returns straight from
the cache without touching the provider or the store. -/
theorem svcBreak_hit (svc : ServiceState) (p : String) (now : Int)
    (parse : String → Except String (List RawSegment)) (provider : ProviderOutcome)
    (l : List PromptSegment) (t : Int)
    (hcfg : ¬svc.config = none)
    (hst : svc.store (generateCacheKey "break-segments" p) = some (CacheData.segs l, t))
    (hlt : now - t < cacheTTL) :
    svcBreakPromptIntoSegments svc p now parse provider = ⟨Except.ok l, svc.store, false⟩ := by
  unfold svcBreakPromptIntoSegments
  rw [if_neg hcfg]
  dsimp only
  simp only [getCachedResult_of_valid hst hlt]

/-- Claim C3: if `segmentize(p)` succeeds, a second `segmentize(p)` with
the identical prompt, issued while the cached entry for `p` is within the
TTL, does not invoke the external provider and returns the cached segment
list, so the provider is invoked at most once across the two calls. -/
theorem c3_segmentize_cached (svc : ServiceState) (p : String) (now₁ now₂ : Int)
    (parse₁ parse₂ : String → Except String (List RawSegment))
    (provider₁ provider₂ : ProviderOutcome) (l : List PromptSegment)
    (h₁ : (svcBreakPromptIntoSegments svc p now₁ parse₁ provider₁).result = Except.ok l)
    (hfresh : ∀ e, (svcBreakPromptIntoSegments svc p now₁ parse₁ provider₁).store
        (generateCacheKey "break-segments" p) = some e → now₂ - e.2 < cacheTTL) :
    (svcBreakPromptIntoSegments
        { config := svc.config,
          store := (svcBreakPromptIntoSegments svc p now₁ parse₁ provider₁).store }
        p now₂ parse₂ provider₂).result = Except.ok l
    ∧ (svcBreakPromptIntoSegments
        { config := svc.config,
          store := (svcBreakPromptIntoSegments svc p now₁ parse₁ provider₁).store }
        p now₂ parse₂ provider₂).called = false
    ∧ ¬((svcBreakPromptIntoSegments svc p now₁ parse₁ provider₁).called = true
      ∧ (svcBreakPromptIntoSegments
          { config := svc.config,
            store := (svcBreakPromptIntoSegments svc p now₁ parse₁ provider₁).store }
          p now₂ parse₂ provider₂).called = true) := by
  obtain ⟨hcfg, t, hst⟩ := svcBreak_ok_store svc p now₁ parse₁ provider₁ l h₁
  have hlt := hfresh (CacheData.segs l, t) hst
  have hhit := svcBreak_hit
    { config := svc.config,
      store := (svcBreakPromptIntoSegments svc p now₁ parse₁ provider₁).store }
    p now₂ parse₂ provider₂ l t hcfg hst hlt
  refine ⟨by rw [hhit], by rw [hhit], ?_⟩
  rintro ⟨h1', h2'⟩
  rw [hhit] at h2'
  cases h2'

/-- Witness for C3: a concrete first segmentize call that misses the
cache, invokes the provider and succeeds; the second call five
milliseconds later is served from the cache with no provider call. -/
theorem c3_segmentize_cached_witness :
    (svcBreakPromptIntoSegments
        { config := some ⟨"k", Model.gpt4omini⟩,
          store := (svcBreakPromptIntoSegments ⟨some ⟨"k", Model.gpt4omini⟩, fun _ => none⟩
            "abc" 0 (fun _ => Except.ok [{ title := some "T", content := some "B" }])
            (ProviderOutcome.response ⟨[⟨some ⟨some "json"⟩, some "stop"⟩]⟩)).store }
        "abc" 5 (fun _ => Except.error "q") (ProviderOutcome.failure "r")).result
      = Except.ok [⟨"segment-0-0", "B", "T", true, 0, false, false⟩]
    ∧ (svcBreakPromptIntoSegments
        { config := some ⟨"k", Model.gpt4omini⟩,
          store := (svcBreakPromptIntoSegments ⟨some ⟨"k", Model.gpt4omini⟩, fun _ => none⟩
            "abc" 0 (fun _ => Except.ok [{ title := some "T", content := some "B" }])
            (ProviderOutcome.response ⟨[⟨some ⟨some "json"⟩, some "stop"⟩]⟩)).store }
        "abc" 5 (fun _ => Except.error "q") (ProviderOutcome.failure "r")).called = false
    ∧ ¬((svcBreakPromptIntoSegments ⟨some ⟨"k", Model.gpt4omini⟩, fun _ => none⟩
          "abc" 0 (fun _ => Except.ok [{ title := some "T", content := some "B" }])
          (ProviderOutcome.response ⟨[⟨some ⟨some "json"⟩, some "stop"⟩]⟩)).called = true
      ∧ (svcBreakPromptIntoSegments
          { config := some ⟨"k", Model.gpt4omini⟩,
            store := (svcBreakPromptIntoSegments ⟨some ⟨"k", Model.gpt4omini⟩, fun _ => none⟩
              "abc" 0 (fun _ => Except.ok [{ title := some "T", content := some "B" }])
              (ProviderOutcome.response ⟨[⟨some ⟨some "json"⟩, some "stop"⟩]⟩)).store }
          "abc" 5 (fun _ => Except.error "q") (ProviderOutcome.failure "r")).called = true) :=
  c3_segmentize_cached ⟨some ⟨"k", Model.gpt4omini⟩, fun _ => none⟩ "abc" 0 5
    (fun _ => Except.ok [{ title := some "T", content := some "B" }])
    (fun _ => Except.error "q")
    (ProviderOutcome.response ⟨[⟨some ⟨some "json"⟩, some "stop"⟩]⟩)
    (ProviderOutcome.failure "r")
    [⟨"segment-0-0", "B", "T", true, 0, false, false⟩]
    rfl
    (by
      intro e he
      have h2 : some ((CacheData.segs [⟨"segment-0-0", "B", "T", true, 0, false, false⟩],
          (0 : Int))) = some e := he
      injection h2 with h3
      subst h3
      decide)

end PromptEditor
